import Mathlib

/-!
Verification of the transcript ingestion and normalization pipeline of the
PCF_Transcription repository (src/SampleControl/index.ts, class
TranscriptViewer).

The TypeScript source is shallowly embedded: the mutable fields of the
TranscriptViewer instance become a state record (`CtrlState`), each method
becomes a state-passing function, DOM article elements become records of the
query results the code actually reads (`Article`), and the browser event loop
(mutation-observer callbacks, the 500 ms safety-net interval, pending
setTimeout retries, destroy) becomes a step relation over events (`MonEv`).
JavaScript `Date` values are represented by provenance (`JSDate`): the code
stores `new Date()` or `new Date(s)` and inspects a date only through
`toISOString` (which throws a RangeError on an Invalid Date) and display
formatting (which never throws); whether the host's `Date.parse` accepts a
given string is implementation-defined and enters the embedding as an
explicit parameter `parses`.  Synchronous exceptions escaping a method are
modelled by a `threw` flag next to the state at the throw point.
-/

namespace PCFTranscription

/-! ## JavaScript string primitives used by the source -/

/-- Is `pat` a leading segment of `l`?  Char-list core of `String.includes`. -/
def startsWithL : List Char → List Char → Bool
  | [], _ => true
  | _ :: _, [] => false
  | p :: ps, c :: cs => p == c && startsWithL ps cs

/-- Does `pat` occur contiguously inside `l`? -/
def hasSubL (pat : List Char) : List Char → Bool
  | [] => startsWithL pat []
  | c :: cs => startsWithL pat (c :: cs) || hasSubL pat cs

/-- JavaScript `s.includes(pat)`. -/
def jsIncludes (s pat : String) : Bool := hasSubL pat.data s.data

/-- JavaScript `s.trim()`: strip leading and trailing whitespace.
(Char-list implementation so that concrete inputs evaluate by kernel
reduction.) -/
def jsTrim (s : String) : String :=
  String.mk (((s.data.dropWhile Char.isWhitespace).reverse.dropWhile
    Char.isWhitespace).reverse)

/-- JavaScript `s.toLowerCase()`, on the ASCII letters the mapping rules
use. -/
def jsToLower (s : String) : String := String.mk (s.data.map Char.toLower)

/-- JavaScript truthiness of a `string | null | undefined` value:
`null`/`undefined` and the empty string are falsy. -/
def jsTruthyS : Option String → Bool
  | none => false
  | some s => s != ""

/-- JavaScript `x || y` on a `string | null | undefined` left operand. -/
def jsOrS (x : Option String) (y : String) : String :=
  match x with
  | none => y
  | some s => if s != "" then s else y

/-- JavaScript `.` (without the s-flag) does not match line terminators. -/
def isDotChar (c : Char) : Bool := c != '\n' && c != '\r'

/-- After a whitespace run of length at least one, does `said:`
(case-insensitively) follow?  This is `\s+said:` with backtracking: since
the letter s is not whitespace, the run is exactly the maximal one. -/
def wsThenSaidL : List Char → Bool
  | [] => false
  | c :: cs =>
    c.isWhitespace &&
      startsWithL "said:".data (((c :: cs).dropWhile Char.isWhitespace).map Char.toLower)

/-- Search for the shortest non-empty prefix (the lazy group of
`/^(.+?)\s+said:/i`) whose continuation matches `\s+said:`; `acc` holds the
group candidate built so far. -/
def ariaSaidAux (acc : List Char) : List Char → Option (List Char)
  | [] => none
  | c :: cs =>
    if isDotChar c then
      if wsThenSaidL cs then some (acc ++ [c])
      else ariaSaidAux (acc ++ [c]) cs
    else none

/-- The group `match[1]` of `ariaLabel.match(/^(.+?)\s+said:/i)`, when the
regular expression matches. -/
def ariaSaidMatch (s : String) : Option String :=
  (ariaSaidAux [] s.data).map (fun l => String.mk l)

/-! ## Data model -/

/-- A JavaScript `Date` value by provenance.  The source never inspects a
date: DOM-path utterances store `new Date()` (observation wall-clock time,
in ms), event-path utterances store `new Date(x)` of the event-supplied
value (which may be `undefined`). -/
inductive JSDate
  | wallClock (nowMs : Nat)
  | fromString (s : Option String)
  deriving DecidableEq, Repr

/-- `TranscriptUtterance` of the source.  `speaker` and `text` are declared
`string` in the interface but at runtime an event payload can leave them
`undefined`, hence `Option String`. -/
structure Utterance where
  id : String
  speaker : Option String
  text : Option String
  timestamp : JSDate
  sentiment : Option String
  deriving DecidableEq, Repr

/-- One `article.webchat__basic-transcript__activity` element, as the record
of the query results `processTranscriptArticle` reads from it.  `elemId` is
the physical identity of the element (the key of the `Set<Element>` dedup
index).  Each `Option String` field is the `textContent` (resp. attribute
value) delivered by the corresponding selector, `none` when nothing matches.
`timeElem` is the value of a dedicated time element the article may carry;
no line of the source ever queries it. -/
structure Article where
  elemId : Nat
  /-- `article.querySelector('.webchat--css-wwipp-111jw2m')` textContent -/
  senderCss : Option String := none
  /-- `article.querySelector('[class*="sender"]')` textContent -/
  senderClassSender : Option String := none
  /-- `article.querySelector('[class*="from"]')` textContent -/
  senderClassFrom : Option String := none
  /-- `article.querySelector('[aria-label*="from"], [aria-label*="said"]')` textContent -/
  senderAria : Option String := none
  /-- `article.getAttribute('aria-label')` -/
  ariaLabel : Option String := none
  /-- `article.getAttribute('data-sender')` -/
  dataSender : Option String := none
  /-- `article.getAttribute('data-from')` -/
  dataFrom : Option String := none
  /-- `article.querySelector('.webchat__render-markdown div')` textContent -/
  msgMarkdown : Option String := none
  /-- `article.querySelector('.webchat__text-content__markdown')` textContent -/
  msgTextContent : Option String := none
  /-- `article.querySelector('[class*="message"], [class*="text"]')` textContent -/
  msgClassPat : Option String := none
  /-- a dedicated, parseable time element on the article, if present
  (never read by the code) -/
  timeElem : Option String := none
  deriving DecidableEq, Repr

/-! ## Message Extractor (processTranscriptArticle, extraction part) -/

/-- Sender extraction cascade of `processTranscriptArticle`
(src/SampleControl/index.ts lines 402-434): selector cascade, then the
article aria-label match `/^(.+?)\s+said:/i`, then the data attributes,
defaulting to `"Unknown"`. -/
def extractSender (a : Article) : String :=
  let senderElement :=
    a.senderCss <|> a.senderClassSender <|> a.senderClassFrom <|> a.senderAria
  let sender := jsOrS (senderElement.map jsTrim) ""
  let sender :=
    if sender == "" then
      match a.ariaLabel with
      | some l =>
        match ariaSaidMatch l with
        | some m => jsTrim m
        | none => sender
      | none => sender
    else sender
  if sender == "" then
    jsOrS a.dataSender (jsOrS a.dataFrom "Unknown")
  else sender

/-- Text extraction cascade of `processTranscriptArticle`
(lines 440-448): three selectors, then
`messageElement?.textContent?.trim() || ""`. -/
def extractText (a : Article) : String :=
  let messageElement := a.msgMarkdown <|> a.msgTextContent <|> a.msgClassPat
  jsOrS (messageElement.map jsTrim) ""

/-! ## Speaker Normalizer -/

/-- Speaker mapping of the first `processTranscriptArticle` variant
(lines 460-469): `speaker` starts as `"Agent"`, case-insensitive substring
rules rewrite it. -/
def normalizeSpeakerV1 (sender : String) : String :=
  let speaker := "Agent"
  let senderLower := jsToLower sender
  if jsIncludes senderLower "customer" || jsIncludes senderLower "mike" ||
     jsIncludes senderLower "poulsen" || jsIncludes senderLower "bot" ||
     jsIncludes senderLower "cu" then
    "Customer"
  else if jsIncludes senderLower "unknown" || jsIncludes senderLower "you" ||
          jsIncludes senderLower "caller" || jsIncludes senderLower "guest" then
    "Agent"
  else speaker

/-- Speaker mapping of the second repository variant of
`processTranscriptArticle` (lines 2040-2053): default `"Customer"`, with the
opposite assignment of the `customer`/`unknown` labels. -/
def normalizeSpeakerV2 (sender : String) : String :=
  let speaker := "Customer"
  let senderLower := jsToLower sender
  if jsIncludes senderLower "customer" then
    "Agent"
  else if jsIncludes senderLower "unknown" then
    "Customer"
  else if jsIncludes senderLower "bot" || jsIncludes senderLower "agent" ||
          jsIncludes senderLower "cu" then
    "Agent"
  else if jsIncludes senderLower "you" || jsIncludes senderLower "caller" ||
          jsIncludes senderLower "guest" then
    "Customer"
  else speaker

/-! ## Control state

The mutable state of a `TranscriptViewer` instance, restricted to the fields
the ingestion pipeline reads or writes.  The transcript log additionally
tags each entry with the identity of the source article element it was
extracted from (`none` for event-path utterances); this tag is pure
specification bookkeeping (the source log stores only the utterance) and is
never consulted by any embedded operation. -/

structure CtrlState where
  conversationId : Option String
  sessionlessId : Option String
  /-- `_transcriptUtterances`, each entry tagged with its source element -/
  transcriptUtterances : List (Option Nat × Utterance)
  isActive : Bool
  /-- `_processedArticles : Set<Element>`, by element identity -/
  processedArticles : List Nat
  /-- `_transcriptObserver` is non-null (observer connected) -/
  transcriptObserver : Bool
  /-- `_articleCheckInterval` is non-null; value = the interval in ms -/
  articleCheckInterval : Option Nat
  /-- `_pollingInterval` is non-null; value = the interval in ms -/
  pollingInterval : Option Nat
  /-- `_customEventHandler` is registered -/
  customEventHandler : Bool
  /-- `_postMessageHandler` is registered -/
  postMessageHandler : Bool
  /-- a `setTimeout(() => this.startIFrameMonitoring(), 2000)` retry is
  pending in the browser timeout queue; value = its delay in ms.  The source
  stores no reference to this timeout in any field of the class. -/
  pendingRetryDelayMs : Option Nat
  /-- `_azureOpenAIEndpoint` is truthy.  `init` (line 542) calls
  `configureAzureFoundry`, which assigns the endpoint fields with no
  intervening await, so this is `true` from initialization on; neither
  `destroy` nor `resetTranscript` ever clears it. -/
  azureOpenAIEndpoint : Bool
  deriving DecidableEq, Repr

/-- Is a JavaScript `Date` an Invalid Date?  `new Date()` never is;
`new Date(undefined)` always is; for `new Date(s)` with a string `s` the
verdict is the host's `Date.parse`, which is implementation-defined beyond
ISO 8601 and therefore enters the embedding as the parameter `parses`. -/
def jsDateIsInvalid (parses : String → Bool) : JSDate → Bool
  | JSDate.wallClock _ => false
  | JSDate.fromString none => true
  | JSDate.fromString (some s) => !parses s

/-- Outcome of running a method that can raise a synchronous exception:
`threw` records an uncaught TypeError/RangeError escaping it; `state` is
the instance state at exit, including mutations made before the throw
point. -/
structure HandlerResult where
  threw : Bool
  state : CtrlState
  deriving DecidableEq, Repr

/-- `Set.has` on the processed-element index. -/
def memB (n : Nat) : List Nat → Bool
  | [] => false
  | m :: l => n == m || memB n l

/-- The generated utterance id `utterance-${Date.now()}-${Math.random()}`.
The `Math.random()` component is elided: no embedded operation and no claim
ever compares DOM-path utterance ids. -/
def genUtteranceId (now : Nat) : String := "utterance-" ++ toString now

/-- `addUtterance` (lines 913-967): build the utterance and push it — no
emptiness check is performed on any argument.  Then `renderUtterance`,
whose `utterance.speaker.toLowerCase()` (line 974) throws a TypeError when
the speaker is nullish (its `toLocaleTimeString` and textContent-based
`escapeHtml` never throw); then the `_isActive` flip; then, the Azure
endpoint being configured since `init`, the AI-analysis tail calls
`getTranscriptJSON()` (line 956), whose `u.timestamp.toISOString()`
(line 1482) throws a RangeError as soon as any logged utterance — the one
just pushed included — carries an Invalid-Date timestamp.  Neither throw
is caught inside the method, and both happen after the push.  The cleared
AI-chat history, the rendering and the asynchronous Azure call have no
state-relevant effect.  `src` is the specification source tag described at
`CtrlState`. -/
def addUtterance (parses : String → Bool) (src : Option Nat)
    (speaker text : Option String) (timestamp : JSDate)
    (sentiment : Option String) (id : Option String) (freshId : String)
    (s : CtrlState) : HandlerResult :=
  let utteranceId := jsOrS id freshId
  let utterance : Utterance :=
    { id := utteranceId, speaker := speaker, text := text,
      timestamp := timestamp, sentiment := sentiment }
  let s := { s with transcriptUtterances := s.transcriptUtterances ++ [(src, utterance)] }
  if utterance.speaker.isNone then { threw := true, state := s }
  else
    let s := if !s.isActive then { s with isActive := true } else s
    if s.azureOpenAIEndpoint && decide (0 < s.transcriptUtterances.length) then
      if s.transcriptUtterances.any (fun p => jsDateIsInvalid parses p.2.timestamp) then
        { threw := true, state := s }
      else { threw := false, state := s }
    else { threw := false, state := s }

/-- `processTranscriptArticle` (lines 392-480): skip if the element is in
the processed index; extract sender and text; on non-empty text, mark the
element processed, normalize the speaker (first variant's mapping) and
append with `new Date()`; on empty text leave the state untouched.  Every
extraction step is optional-chained and total; the only exception the
body's `try`/`catch` (lines 393/477) can contain is the RangeError from
the `addUtterance` tail when an earlier inbound event left an Invalid-Date
timestamp in the log — the state at the catch point is the handler-result
state, push and mark retained (the speaker here is never nullish, so the
render throw is impossible). -/
def processTranscriptArticle (parses : String → Bool) (now : Nat) (a : Article)
    (s : CtrlState) : CtrlState :=
  if memB a.elemId s.processedArticles then s
  else
    let sender := extractSender a
    let text := extractText a
    if text != "" then
      let s := { s with processedArticles := a.elemId :: s.processedArticles }
      let speaker := normalizeSpeakerV1 sender
      (addUtterance parses (some a.elemId) (some speaker) (some text)
        (JSDate.wallClock now) none none (genUtteranceId now) s).state
    else s

/-! ## The Change Watcher event machine -/

/-- What the frame-location steps of `startIFrameMonitoring` find. -/
inductive FrameEnv
  /-- `document.querySelector('#SidePanelIFrame')` returns null -/
  | noConvFrame
  /-- the nested `iframe[title="Omnichannel"]` is absent (or the outer
  document is inaccessible) -/
  | noOmniFrame
  /-- the Omnichannel iframe's `contentDocument` is inaccessible -/
  | noDoc
  /-- both frames found; `existing` = the articles currently in the
  transcript, in document order -/
  | ok (existing : List Article)
  deriving DecidableEq, Repr

/-- The retry delay of `setTimeout(() => this.startIFrameMonitoring(), 2000)`. -/
def retryDelayMs : Nat := 2000

/-- The safety-net poll period of `window.setInterval(..., 500)`. -/
def articleCheckIntervalMs : Nat := 500

/-- One `MutationRecord` as the observer callback reads it:
`addedArticles` are the added nodes matching
`article.webchat__basic-transcript__activity` together with their nested
article descendants, in iteration order; `target` is
`mutation.target.closest('article....activity')` when that exists. -/
structure MutationRec where
  addedArticles : List Article
  target : Option Article
  deriving DecidableEq, Repr

/-- The per-record body of the MutationObserver callback (lines 325-356):
process each added article, then, if the record targets a descendant of a
not-yet-processed article whose `.webchat__render-markdown div` now has
non-blank text, process that article. -/
def handleMutationRec (parses : String → Bool) (now : Nat) (s : CtrlState)
    (r : MutationRec) : CtrlState :=
  let s := r.addedArticles.foldl (fun st a => processTranscriptArticle parses now a st) s
  match r.target with
  | some a =>
    if !memB a.elemId s.processedArticles &&
       jsOrS (a.msgMarkdown.map jsTrim) "" != "" then
      processTranscriptArticle parses now a s
    else s
  | none => s

/-- The body of the 500 ms safety-net interval (lines 377-385): re-scan the
container and process every article not in the processed index. -/
def pollCheck (parses : String → Bool) (now : Nat) (arts : List Article)
    (s : CtrlState) : CtrlState :=
  arts.foldl
    (fun st a => if !memB a.elemId st.processedArticles
                 then processTranscriptArticle parses now a st else st) s

/-- `startIFrameMonitoring` (lines 293-386): on failure to find either
frame, schedule an anonymous 2000 ms retry and return; on an inaccessible
nested document, just return; on success, connect the observer, process the
existing articles, and start the 500 ms safety-net interval. -/
def startIFrameMonitoring (parses : String → Bool) (now : Nat) (env : FrameEnv)
    (s : CtrlState) : CtrlState :=
  match env with
  | FrameEnv.noConvFrame => { s with pendingRetryDelayMs := some retryDelayMs }
  | FrameEnv.noOmniFrame => { s with pendingRetryDelayMs := some retryDelayMs }
  | FrameEnv.noDoc => s
  | FrameEnv.ok existing =>
    let s := { s with transcriptObserver := true }
    let s := existing.foldl (fun st a => processTranscriptArticle parses now a st) s
    { s with articleCheckInterval := some articleCheckIntervalMs }

/-- `stopIFrameMonitoring` (lines 485-497): disconnect the observer and
clear the article-check interval.  No field refers to a pending
`startIFrameMonitoring` retry timeout, so nothing here can clear one. -/
def stopIFrameMonitoring (s : CtrlState) : CtrlState :=
  { s with transcriptObserver := false, articleCheckInterval := none }

/-- `stopPolling` (lines 1348-1354). -/
def stopPolling (s : CtrlState) : CtrlState :=
  { s with pollingInterval := none }

/-- `unsubscribeFromTranscriptEvents` (lines 1359-1376). -/
def unsubscribeFromTranscriptEvents (s : CtrlState) : CtrlState :=
  stopPolling { s with customEventHandler := false, postMessageHandler := false }

/-- `destroy` (lines 1619-1627). -/
def destroy (s : CtrlState) : CtrlState :=
  stopIFrameMonitoring (unsubscribeFromTranscriptEvents s)

/-- `resetTranscript` (lines 1403-1416, state-relevant part): discard all
utterances, clear the processed-element index, reset `_isActive`. -/
def resetTranscript (s : CtrlState) : CtrlState :=
  { s with transcriptUtterances := [], processedArticles := [], isActive := false }

/-- `updateView` (lines 1381-1398): whenever the bound `conversationId`
differs (strict `!==`) from the current one, adopt it — generating a fresh
sessionless id when the new value is falsy — and reset the transcript. -/
def updateView (newConversationId : Option String) (now : Nat) (s : CtrlState) : CtrlState :=
  if newConversationId ≠ s.conversationId then
    let s := { s with conversationId := newConversationId }
    let s :=
      if !jsTruthyS s.conversationId then
        { s with sessionlessId := some ("sessionless-" ++ toString now) }
      else s
    resetTranscript s
  else s

/-- The state of a freshly initialized control, before the
`startIFrameMonitoring` call of `init` (lines 502-556, state-relevant
part): `conversationId` from the bound parameter, both event handlers
subscribed, a sessionless id when no conversation id is present. -/
def initState (conversationId : Option String) (now : Nat) : CtrlState :=
  { conversationId := conversationId,
    sessionlessId :=
      if !jsTruthyS conversationId then some ("sessionless-" ++ toString now) else none,
    transcriptUtterances := [], isActive := false, processedArticles := [],
    transcriptObserver := false, articleCheckInterval := none,
    pollingInterval := none, customEventHandler := true,
    postMessageHandler := true, pendingRetryDelayMs := none,
    azureOpenAIEndpoint := true }

/-- One delivery of the browser event loop to the Change Watcher.  Each
carries the wall-clock time `now` at which its callback runs. -/
inductive MonEv
  /-- the MutationObserver callback fires with a batch of records -/
  | mutationBatch (now : Nat) (batch : List MutationRec)
  /-- the 500 ms safety-net interval ticks; `arts` = the articles currently
  in the container -/
  | pollTick (now : Nat) (arts : List Article)
  /-- a pending `startIFrameMonitoring` retry timeout fires -/
  | retryFires (now : Nat) (env : FrameEnv)
  /-- `startIFrameMonitoring` is invoked (from `init`) -/
  | startMonitoring (now : Nat) (env : FrameEnv)
  /-- `destroy` is invoked -/
  | destroyEv
  deriving DecidableEq, Repr

/-- The event-loop step.  A disconnected observer's callback and a cleared
interval's tick never run; a timeout fires only while it is pending. -/
def step (parses : String → Bool) (s : CtrlState) (e : MonEv) : CtrlState :=
  match e with
  | MonEv.mutationBatch now batch =>
    if s.transcriptObserver then batch.foldl (handleMutationRec parses now) s else s
  | MonEv.pollTick now arts =>
    if s.articleCheckInterval.isSome then pollCheck parses now arts s else s
  | MonEv.retryFires now env =>
    if s.pendingRetryDelayMs.isSome then
      startIFrameMonitoring parses now env { s with pendingRetryDelayMs := none }
    else s
  | MonEv.startMonitoring now env => startIFrameMonitoring parses now env s
  | MonEv.destroyEv => destroy s

/-! ## Inbound event handlers -/

/-- The `utterance` payload of an inbound event.  The interfaces declare the
fields `string`, but a runtime payload can omit any of them. -/
structure EventUtterance where
  speaker : Option String := none
  text : Option String := none
  timestamp : Option String := none
  sentiment : Option String := none
  deriving DecidableEq, Repr

/-- `CustomEvent.detail` of an `omnichannelTranscriptUpdate` event
(interface `OmnichannelTranscriptEvent`); either field can be absent at
runtime. -/
structure TranscriptEventDetail where
  conversationId : Option String := none
  utterance : Option EventUtterance := none
  deriving DecidableEq, Repr

/-- The flat envelope of a `window.postMessage` delivery. -/
structure PostMessageData where
  type : Option String := none
  conversationId : Option String := none
  speaker : Option String := none
  text : Option String := none
  timestamp : Option String := none
  sentiment : Option String := none
  deriving DecidableEq, Repr

/-- The id-latching prelude shared verbatim by both handlers
(lines 762-776 and 814-828): adopt the first truthy incoming id when none
is latched; otherwise, lacking both ids, mint a sessionless id; a mismatch
between two existing ids is only logged. -/
def latchConversationId (incomingId : Option String) (now : Nat) (s : CtrlState) : CtrlState :=
  if !jsTruthyS s.conversationId && jsTruthyS incomingId then
    { s with conversationId := incomingId }
  else if !jsTruthyS s.conversationId && !jsTruthyS s.sessionlessId then
    { s with sessionlessId := some ("sessionless-" ++ toString now) }
  else s

/-- `handleCustomTranscriptEvent` (lines 752-787): a falsy `detail` returns
early; otherwise latch, then read `data.utterance.speaker` and friends — a
defined detail without an `utterance` field makes that access throw a
TypeError — and call `addUtterance`, whose rendering/analysis tail can
itself throw (after the push); the handler has no `try`/`catch`, so any of
these escapes it. -/
def handleCustomTranscriptEvent (parses : String → Bool)
    (detail : Option TranscriptEventDetail) (now : Nat) (freshId : String)
    (s : CtrlState) : HandlerResult :=
  match detail with
  | none => { threw := false, state := s }
  | some data =>
    let s := latchConversationId data.conversationId now s
    match data.utterance with
    | none => { threw := true, state := s }
    | some u =>
      addUtterance parses none u.speaker u.text (JSDate.fromString u.timestamp)
        u.sentiment none freshId s

/-- `handlePostMessage` (lines 802-839): reading `data.type` off a
null/undefined `event.data` throws; a non-matching `type` returns early;
otherwise latch and call `addUtterance`, whose rendering/analysis tail can
itself throw (after the push); the handler has no `try`/`catch`. -/
def handlePostMessage (parses : String → Bool) (data : Option PostMessageData)
    (now : Nat) (freshId : String) (s : CtrlState) : HandlerResult :=
  match data with
  | none => { threw := true, state := s }
  | some m =>
    if m.type ≠ some "omnichannelTranscriptUpdate" then { threw := false, state := s }
    else
      let s := latchConversationId m.conversationId now s
      addUtterance parses none m.speaker m.text (JSDate.fromString m.timestamp)
        m.sentiment none freshId s

/-! ## Concrete instances used in counterexamples and witnesses -/

/-- A host on which no string parses as a date (the concrete strings below
are all non-ISO strings every engine rejects); used to instantiate the
`parses` parameter at concrete inputs. -/
def noDateParses : String → Bool := fun _ => false

/-- An article whose `.webchat__render-markdown div` holds `"Hello"` and
nothing else. -/
def helloArticle : Article := { elemId := 0, msgMarkdown := some "Hello" }

/-- The control state after `init` with a conversation id, a
`startIFrameMonitoring` call that found no `#SidePanelIFrame` (scheduling
the 2000 ms retry), and then `destroy()`. -/
def retryLeakState : CtrlState :=
  [MonEv.startMonitoring 0 FrameEnv.noConvFrame, MonEv.destroyEv].foldl
    (step noDateParses) (initState (some "conv") 0)

/-- A state latched to conversation `"abc"` holding one utterance. -/
def c5State : CtrlState :=
  { initState (some "abc") 0 with
    transcriptUtterances :=
      [(none, { id := "u1", speaker := some "Agent", text := some "hi",
                timestamp := JSDate.wallClock 1, sentiment := none })] }

/-- An article that carries a dedicated, parseable time element next to its
message text. -/
def timedArticle : Article :=
  { elemId := 3, msgMarkdown := some "Hi",
    timeElem := some "2024-01-02T03:04:05Z" }

/-- A monitoring start that fails to find the conversation frame, followed
by `N` firings of the retry timeout, each failing again. -/
def c8FailTrace (N : Nat) : List MonEv :=
  MonEv.startMonitoring 0 FrameEnv.noConvFrame ::
    List.replicate N (MonEv.retryFires 0 FrameEnv.noConvFrame)

/-- The control state right after a `startIFrameMonitoring` call that
failed to find the conversation frame. -/
def retryFailState : CtrlState :=
  step noDateParses (initState none 0) (MonEv.startMonitoring 0 FrameEnv.noConvFrame)

/-! ## Helper lemmas -/

/-- Number of transcript-log entries extracted from source element `n`. -/
def countSrc (n : Nat) : List (Option Nat × Utterance) → Nat
  | [] => 0
  | e :: l => (if e.1 == some n then 1 else 0) + countSrc n l

theorem countSrc_append (n : Nat) (l1 l2 : List (Option Nat × Utterance)) :
    countSrc n (l1 ++ l2) = countSrc n l1 + countSrc n l2 := by
  induction l1 with
  | nil => simp [countSrc]
  | cons e l ih => simp [countSrc, ih, Nat.add_assoc]

/-- The dedup invariant maintained by the Change Watcher: every source
element has produced at most one log entry, and any element that has
produced one is in the processed index. -/
def DedupInv (s : CtrlState) : Prop :=
  ∀ n, countSrc n s.transcriptUtterances ≤ 1 ∧
    (1 ≤ countSrc n s.transcriptUtterances → memB n s.processedArticles = true)

theorem addUtterance_state_utterances (parses : String → Bool) (src : Option Nat)
    (sp tx : Option String) (ts : JSDate) (se id : Option String) (fid : String)
    (s : CtrlState) :
    (addUtterance parses src sp tx ts se id fid s).state.transcriptUtterances =
      s.transcriptUtterances ++
        [(src, { id := jsOrS id fid, speaker := sp, text := tx,
                 timestamp := ts, sentiment := se })] := by
  simp only [addUtterance]
  split_ifs <;> rfl

theorem addUtterance_state_processed (parses : String → Bool) (src : Option Nat)
    (sp tx : Option String) (ts : JSDate) (se id : Option String) (fid : String)
    (s : CtrlState) :
    (addUtterance parses src sp tx ts se id fid s).state.processedArticles =
      s.processedArticles := by
  simp only [addUtterance]
  split_ifs <;> rfl

theorem addUtterance_conversationId (parses : String → Bool) (src : Option Nat)
    (sp tx : Option String) (ts : JSDate) (se id : Option String) (fid : String)
    (s : CtrlState) :
    (addUtterance parses src sp tx ts se id fid s).state.conversationId =
      s.conversationId := by
  simp only [addUtterance]
  split_ifs <;> rfl

theorem addUtterance_length (parses : String → Bool) (src : Option Nat)
    (sp tx : Option String) (ts : JSDate) (se id : Option String) (fid : String)
    (s : CtrlState) :
    (addUtterance parses src sp tx ts se id fid s).state.transcriptUtterances.length =
      s.transcriptUtterances.length + 1 := by
  rw [addUtterance_state_utterances]
  simp

/-- With a non-nullish speaker the render throw is impossible, so the
result state is exactly: the push, plus `_isActive = true` (set now or
already true). -/
theorem addUtterance_state_some (parses : String → Bool) (src : Option Nat)
    (spk : String) (tx : Option String) (ts : JSDate) (se id : Option String)
    (fid : String) (s : CtrlState) :
    (addUtterance parses src (some spk) tx ts se id fid s).state =
      { s with
        transcriptUtterances := s.transcriptUtterances ++
          [(src, { id := jsOrS id fid, speaker := some spk, text := tx,
                   timestamp := ts, sentiment := se })],
        isActive := true } := by
  cases s
  simp only [addUtterance]
  split_ifs <;> simp_all

theorem process_of_mem (parses : String → Bool) (now : Nat) (a : Article)
    (s : CtrlState) (h : memB a.elemId s.processedArticles = true) :
    processTranscriptArticle parses now a s = s := by
  unfold processTranscriptArticle
  simp [h]

theorem process_of_empty (parses : String → Bool) (now : Nat) (a : Article)
    (s : CtrlState) (h : extractText a = "") :
    processTranscriptArticle parses now a s = s := by
  unfold processTranscriptArticle
  split
  · rfl
  · simp [h]

theorem process_append (parses : String → Bool) (now : Nat) (a : Article)
    (s : CtrlState)
    (hmem : memB a.elemId s.processedArticles = false)
    (htext : extractText a ≠ "") :
    processTranscriptArticle parses now a s =
      { s with
        processedArticles := a.elemId :: s.processedArticles,
        transcriptUtterances := s.transcriptUtterances ++
          [(some a.elemId,
            { id := genUtteranceId now,
              speaker := some (normalizeSpeakerV1 (extractSender a)),
              text := some (extractText a),
              timestamp := JSDate.wallClock now, sentiment := none })],
        isActive := true } := by
  have ht : (extractText a != "") = true := by simp [htext]
  simp only [processTranscriptArticle, hmem, Bool.false_eq_true, if_false, ht, if_true,
    addUtterance_state_some, jsOrS]

theorem process_dedup (parses : String → Bool) (now : Nat) (a : Article)
    (s : CtrlState) (h : DedupInv s) :
    DedupInv (processTranscriptArticle parses now a s) := by
  cases hmem : memB a.elemId s.processedArticles
  · by_cases htext : extractText a = ""
    · rw [process_of_empty parses now a s htext]; exact h
    · rw [process_append parses now a s hmem htext]
      intro n
      rcases h n with ⟨h1, h2⟩
      by_cases hn : n = a.elemId
      · subst hn
        have hc0 : countSrc a.elemId s.transcriptUtterances = 0 := by
          rcases Nat.eq_or_lt_of_le h1 with hc | hc
          · exact absurd (h2 (le_of_eq hc.symm)) (by simp [hmem])
          · omega
        simp [countSrc_append, countSrc, hc0, memB]
      · have hb : (some a.elemId == some n) = false := by
          simp
          exact fun e => hn e.symm
        constructor
        · simpa [countSrc_append, countSrc, hb] using h1
        · intro hge
          have : 1 ≤ countSrc n s.transcriptUtterances := by
            simpa [countSrc_append, countSrc, hb] using hge
          simp [memB, h2 this]
  · rw [process_of_mem parses now a s hmem]; exact h

theorem foldl_preserve {α : Type} (P : CtrlState → Prop) (f : CtrlState → α → CtrlState)
    (hf : ∀ s x, P s → P (f s x)) :
    ∀ (l : List α) (s : CtrlState), P s → P (l.foldl f s) := by
  intro l
  induction l with
  | nil => intro s h; exact h
  | cons x xs ih => intro s h; exact ih (f s x) (hf s x h)

theorem handleMutationRec_dedup (parses : String → Bool) (now : Nat) (s : CtrlState)
    (r : MutationRec) (h : DedupInv s) :
    DedupInv (handleMutationRec parses now s r) := by
  unfold handleMutationRec
  have h1 : DedupInv
      (r.addedArticles.foldl (fun st a => processTranscriptArticle parses now a st) s) :=
    foldl_preserve DedupInv _ (fun st a hst => process_dedup parses now a st hst) _ s h
  cases r.target with
  | none => exact h1
  | some a =>
    simp only
    split
    · exact process_dedup parses now a _ h1
    · exact h1

theorem pollCheck_dedup (parses : String → Bool) (now : Nat) (arts : List Article)
    (s : CtrlState) (h : DedupInv s) : DedupInv (pollCheck parses now arts s) := by
  unfold pollCheck
  refine foldl_preserve DedupInv _ (fun st a hst => ?_) _ s h
  split
  · exact process_dedup parses now a st hst
  · exact hst

theorem dedup_of_fields (s s' : CtrlState)
    (hu : s'.transcriptUtterances = s.transcriptUtterances)
    (hp : s'.processedArticles = s.processedArticles)
    (h : DedupInv s) : DedupInv s' := by
  intro n
  rw [hu, hp]
  exact h n

theorem startIFrameMonitoring_dedup (parses : String → Bool) (now : Nat)
    (env : FrameEnv) (s : CtrlState) (h : DedupInv s) :
    DedupInv (startIFrameMonitoring parses now env s) := by
  cases env with
  | noConvFrame => exact dedup_of_fields s _ rfl rfl h
  | noOmniFrame => exact dedup_of_fields s _ rfl rfl h
  | noDoc => exact h
  | ok existing =>
    unfold startIFrameMonitoring
    refine dedup_of_fields _ _ rfl rfl ?_
    exact foldl_preserve DedupInv _ (fun st a hst => process_dedup parses now a st hst) _ _
      (dedup_of_fields s _ rfl rfl h)

theorem step_dedup (parses : String → Bool) (s : CtrlState) (e : MonEv)
    (h : DedupInv s) : DedupInv (step parses s e) := by
  cases e with
  | mutationBatch now batch =>
    simp only [step]
    split
    · exact foldl_preserve DedupInv _
        (fun st r hst => handleMutationRec_dedup parses now st r hst) batch s h
    · exact h
  | pollTick now arts =>
    simp only [step]
    split
    · exact pollCheck_dedup parses now arts s h
    · exact h
  | retryFires now env =>
    simp only [step]
    split
    · exact startIFrameMonitoring_dedup parses now env _ (dedup_of_fields s _ rfl rfl h)
    · exact h
  | startMonitoring now env => exact startIFrameMonitoring_dedup parses now env s h
  | destroyEv =>
    exact dedup_of_fields s _ rfl rfl h

theorem initState_dedup (cid : Option String) (now : Nat) :
    DedupInv (initState cid now) := by
  intro n
  simp [initState, countSrc]

theorem jsTruthyS_none : jsTruthyS none = false := rfl

theorem jsTruthyS_some (c : String) : jsTruthyS (some c) = (c != "") := rfl

theorem latch_of_none (incoming : Option String) (now : Nat) (s : CtrlState)
    (h0 : s.conversationId = none) (ht : jsTruthyS incoming = true) :
    latchConversationId incoming now s = { s with conversationId := incoming } := by
  unfold latchConversationId
  simp [h0, jsTruthyS_none, ht]

theorem latch_of_latched (incoming : Option String) (now : Nat) (s : CtrlState)
    (c : String) (h1 : s.conversationId = some c) (hc : c ≠ "") :
    latchConversationId incoming now s = s := by
  unfold latchConversationId
  simp [h1, jsTruthyS_some, hc]

theorem latch_utterances (incoming : Option String) (now : Nat) (s : CtrlState) :
    (latchConversationId incoming now s).transcriptUtterances = s.transcriptUtterances := by
  unfold latchConversationId
  split
  · rfl
  · split
    · rfl
    · rfl

theorem handleCustom_ok (parses : String → Bool) (d : TranscriptEventDetail)
    (u : EventUtterance) (hdu : d.utterance = some u) (now : Nat) (fid : String)
    (s : CtrlState) :
    handleCustomTranscriptEvent parses (some d) now fid s =
      addUtterance parses none u.speaker u.text (JSDate.fromString u.timestamp)
        u.sentiment none fid (latchConversationId d.conversationId now s) := by
  simp only [handleCustomTranscriptEvent]
  rw [hdu]

theorem handlePost_ok (parses : String → Bool) (m : PostMessageData)
    (hmt : m.type = some "omnichannelTranscriptUpdate") (now : Nat) (fid : String)
    (s : CtrlState) :
    handlePostMessage parses (some m) now fid s =
      addUtterance parses none m.speaker m.text (JSDate.fromString m.timestamp)
        m.sentiment none fid (latchConversationId m.conversationId now s) := by
  simp only [handlePostMessage]
  rw [if_neg (by simp [hmt])]

theorem foldl_fixpoint {α β : Type} (f : β → α → β) (x : α) (s : β)
    (h : f s x = s) : ∀ N, List.foldl f s (List.replicate N x) = s := by
  intro N
  induction N with
  | zero => rfl
  | succ n ih => simpa [List.replicate, h] using ih

/-! ## Claims -/

/-- C1: for any sequence of event-loop deliveries within one session —
mutation batches, safety-net poll ticks, monitoring (re)starts, retry
firings and destroy, in any order, with any article contents and on any
host date-parser — each distinct source article element yields at most one
Utterance in the Transcript Log: `processTranscriptArticle` appends only
when the element is not in the Processed-Element Index and marks it in the
same synchronous step, independently of which delivery path presented it
and of content equality between elements. -/
theorem at_most_once_per_element (parses : String → Bool) (es : List MonEv)
    (cid : Option String) (now0 : Nat) (n : Nat) :
    countSrc n ((es.foldl (step parses) (initState cid now0)).transcriptUtterances) ≤ 1 :=
  (foldl_preserve DedupInv (step parses) (step_dedup parses) es (initState cid now0)
    (initState_dedup cid now0) n).1

/-- C2: an article whose extracted text is empty (or whitespace-only, which
trims to empty) is neither marked processed nor appended — the processing
step is the identity on the state — and re-processing the same element
after a later mutation fills it with text `"Hello"` appends exactly one
Utterance whose text is `"Hello"`. -/
theorem late_fill_exactly_once (parses : String → Bool) (a b : Article)
    (s : CtrlState) (na nb : Nat)
    (hid : b.elemId = a.elemId)
    (hEmpty : extractText a = "")
    (hFill : extractText b = "Hello")
    (hNew : memB a.elemId s.processedArticles = false) :
    processTranscriptArticle parses na a s = s ∧
    ((processTranscriptArticle parses nb b
        (processTranscriptArticle parses na a s)).transcriptUtterances.map
        (fun p => p.2.text)) =
      s.transcriptUtterances.map (fun p => p.2.text) ++ [some "Hello"] := by
  have h1 : processTranscriptArticle parses na a s = s :=
    process_of_empty parses na a s hEmpty
  refine ⟨h1, ?_⟩
  rw [h1, process_append parses nb b s (by rw [hid]; exact hNew) (by simp [hFill]), hFill]
  simp

/-- C2 witness: a concrete element first delivered as an empty shell, then
re-delivered carrying `"Hello"`. -/
theorem late_fill_exactly_once_witness :
    processTranscriptArticle noDateParses 1 { elemId := 7 } (initState (some "conv") 0) =
        initState (some "conv") 0 ∧
    ((processTranscriptArticle noDateParses 2 { elemId := 7, msgMarkdown := some "Hello" }
        (processTranscriptArticle noDateParses 1 { elemId := 7 }
          (initState (some "conv") 0))).transcriptUtterances.map
        (fun p => p.2.text)) =
      (initState (some "conv") 0).transcriptUtterances.map (fun p => p.2.text) ++
        [some "Hello"] :=
  late_fill_exactly_once noDateParses { elemId := 7 }
    { elemId := 7, msgMarkdown := some "Hello" }
    (initState (some "conv") 0) 1 2 rfl (by decide) (by decide) (by decide)

/-- C3: speaker normalization is total into the closed set
`{"Agent", "Customer"}` for both repository variants of the mapping: for
every raw sender string (empty, unicode, mixed case included) the
case-insensitive substring rules, applied in their fixed order over a fixed
default, produce exactly one of the two labels and cannot fail. -/
theorem normalize_total_closed_set (x : String) :
    (normalizeSpeakerV1 x = "Agent" ∨ normalizeSpeakerV1 x = "Customer") ∧
    (normalizeSpeakerV2 x = "Agent" ∨ normalizeSpeakerV2 x = "Customer") := by
  unfold normalizeSpeakerV1 normalizeSpeakerV2
  dsimp only
  constructor
  · split
    · right; rfl
    · split
      · left; rfl
      · left; rfl
  · split
    · left; rfl
    · split
      · right; rfl
      · split
        · left; rfl
        · split
          · right; rfl
          · right; rfl

/-- C4 (evaluation at the failing input): `destroy()` synchronously
disconnects the observer, clears the article-check and polling intervals
and removes both event handlers, and the discarded log is empty — but the
`startIFrameMonitoring` retry scheduled with `setTimeout(..., 2000)` before
`destroy()` is referenced by no field of the class, so it is still pending
after `destroy()` returns; when it fires it re-attaches monitoring and
appends an Utterance (`"Hello"`) to the discarded Transcript Log,
contradicting the claimed hard contract. -/
theorem destroyed_session_still_appends :
    retryLeakState.transcriptObserver = false ∧
    retryLeakState.articleCheckInterval = none ∧
    retryLeakState.pollingInterval = none ∧
    retryLeakState.customEventHandler = false ∧
    retryLeakState.postMessageHandler = false ∧
    retryLeakState.transcriptUtterances = [] ∧
    retryLeakState.pendingRetryDelayMs = some retryDelayMs ∧
    ((step noDateParses retryLeakState
        (MonEv.retryFires 5 (FrameEnv.ok [helloArticle]))).transcriptUtterances.map
      (fun p => p.2.text)) = [some "Hello"] ∧
    (step noDateParses retryLeakState
        (MonEv.retryFires 5 (FrameEnv.ok [helloArticle]))).transcriptObserver
      = true := by
  decide

/-- C5 counterexample: with the session latched to `"abc"` and one
Utterance in the log, a change of the bound `conversationId` to a null
value does discard the Utterances (and the processed index), refuting the
claim that only a change to a different non-null value resets. -/
theorem reset_on_change_to_null :
    c5State.conversationId = some "abc" ∧
    c5State.transcriptUtterances ≠ [] ∧
    (updateView none 7 c5State).transcriptUtterances = [] ∧
    (updateView none 7 c5State).conversationId = none := by
  decide

/-- C5 amended: the session is reset (all Utterances discarded, the
Processed-Element Index cleared) exactly when the bound `conversationId`
differs from the current one — including a change to a null value; a bound
value equal to the current one never discards anything, and the new value
is always adopted. -/
theorem reset_iff_conversation_changes (newCid : Option String) (now : Nat)
    (s : CtrlState) :
    (updateView newCid now s).transcriptUtterances =
      (if newCid = s.conversationId then s.transcriptUtterances else []) ∧
    (updateView newCid now s).processedArticles =
      (if newCid = s.conversationId then s.processedArticles else []) ∧
    (updateView newCid now s).conversationId = newCid := by
  unfold updateView resetTranscript
  by_cases h : newCid = s.conversationId
  · simp [h]
  · simp only [h, ne_eq, not_false_iff, if_true, if_false]
    split
    · simp [h]
    · simp [h]

/-- C6: with no latched id, the first inbound event carrying a non-empty
conversationId latches the session to it, on both the custom-event path
and the postMessage path; once latched to `c`, a well-formed inbound event
carrying a different id never replaces `c` and is still accepted — its
utterance is appended to the Transcript Log, never dropped — again on both
paths.  Acceptance is the push, which the handlers perform before the
rendering/analysis tail; any exception that tail may raise afterwards
(e.g. on an unparseable timestamp) neither retracts the appended utterance
nor un-latches the id, so the statement holds for every host date-parser. -/
theorem latch_once_accept_mismatch (parses : String → Bool) (s0 s1 : CtrlState)
    (d : TranscriptEventDetail) (u : EventUtterance) (m : PostMessageData)
    (c newId : String) (now : Nat) (fid : String)
    (hdu : d.utterance = some u)
    (hdc : d.conversationId = some newId)
    (hmt : m.type = some "omnichannelTranscriptUpdate")
    (hmc : m.conversationId = some newId)
    (hne : newId ≠ "")
    (hdiff : newId ≠ c)
    (h0 : s0.conversationId = none)
    (h1 : s1.conversationId = some c)
    (hc : c ≠ "") :
    ((handleCustomTranscriptEvent parses (some d) now fid s0).state.conversationId
      = some newId) ∧
    ((handlePostMessage parses (some m) now fid s0).state.conversationId
      = some newId) ∧
    ((handleCustomTranscriptEvent parses (some d) now fid s1).state.conversationId
        = some c ∧
      (handleCustomTranscriptEvent parses (some d) now fid
          s1).state.transcriptUtterances.map (fun p => p.2.text)
        = s1.transcriptUtterances.map (fun p => p.2.text) ++ [u.text]) ∧
    ((handlePostMessage parses (some m) now fid s1).state.conversationId = some c ∧
      (handlePostMessage parses (some m) now fid
          s1).state.transcriptUtterances.map (fun p => p.2.text)
        = s1.transcriptUtterances.map (fun p => p.2.text) ++ [m.text]) := by
  have htr : jsTruthyS (d.conversationId) = true := by
    rw [hdc, jsTruthyS_some]
    simpa using hne
  have htr2 : jsTruthyS (m.conversationId) = true := by
    rw [hmc, jsTruthyS_some]
    simpa using hne
  refine ⟨?_, ?_, ⟨?_, ?_⟩, ⟨?_, ?_⟩⟩
  · rw [handleCustom_ok parses d u hdu, latch_of_none _ _ _ h0 htr,
      addUtterance_conversationId]
    exact hdc
  · rw [handlePost_ok parses m hmt, latch_of_none _ _ _ h0 htr2,
      addUtterance_conversationId]
    exact hmc
  · rw [handleCustom_ok parses d u hdu, latch_of_latched _ _ _ c h1 hc,
      addUtterance_conversationId]
    exact h1
  · rw [handleCustom_ok parses d u hdu, latch_of_latched _ _ _ c h1 hc,
      addUtterance_state_utterances]
    simp
  · rw [handlePost_ok parses m hmt, latch_of_latched _ _ _ c h1 hc,
      addUtterance_conversationId]
    exact h1
  · rw [handlePost_ok parses m hmt, latch_of_latched _ _ _ c h1 hc,
      addUtterance_state_utterances]
    simp

/-- C6 witness: a sessionless start latches onto `"xyz-999"`; a session
latched to `"abc-123"` accepts an event for `"xyz-999"` on both paths. -/
theorem latch_once_accept_mismatch_witness :
    ((handleCustomTranscriptEvent noDateParses
        (some { conversationId := some "xyz-999",
                utterance := some { speaker := some "Agent", text := some "hi",
                                    timestamp := some "t0", sentiment := none } })
        3 "f1" (initState none 0)).state.conversationId = some "xyz-999") ∧
    ((handlePostMessage noDateParses
        (some { type := some "omnichannelTranscriptUpdate",
                conversationId := some "xyz-999", speaker := some "Agent",
                text := some "hi", timestamp := some "t0", sentiment := none })
        3 "f1" (initState none 0)).state.conversationId = some "xyz-999") ∧
    ((handleCustomTranscriptEvent noDateParses
        (some { conversationId := some "xyz-999",
                utterance := some { speaker := some "Agent", text := some "hi",
                                    timestamp := some "t0", sentiment := none } })
        3 "f1" (initState (some "abc-123") 0)).state.conversationId
        = some "abc-123" ∧
      (handleCustomTranscriptEvent noDateParses
        (some { conversationId := some "xyz-999",
                utterance := some { speaker := some "Agent", text := some "hi",
                                    timestamp := some "t0", sentiment := none } })
        3 "f1" (initState (some "abc-123") 0)).state.transcriptUtterances.map
          (fun p => p.2.text)
        = (initState (some "abc-123") 0).transcriptUtterances.map (fun p => p.2.text)
            ++ [some "hi"]) ∧
    ((handlePostMessage noDateParses
        (some { type := some "omnichannelTranscriptUpdate",
                conversationId := some "xyz-999", speaker := some "Agent",
                text := some "hi", timestamp := some "t0", sentiment := none })
        3 "f1" (initState (some "abc-123") 0)).state.conversationId
        = some "abc-123" ∧
      (handlePostMessage noDateParses
        (some { type := some "omnichannelTranscriptUpdate",
                conversationId := some "xyz-999", speaker := some "Agent",
                text := some "hi", timestamp := some "t0", sentiment := none })
        3 "f1" (initState (some "abc-123") 0)).state.transcriptUtterances.map
          (fun p => p.2.text)
        = (initState (some "abc-123") 0).transcriptUtterances.map (fun p => p.2.text)
            ++ [some "hi"]) :=
  latch_once_accept_mismatch noDateParses (initState none 0)
    (initState (some "abc-123") 0)
    { conversationId := some "xyz-999",
      utterance := some { speaker := some "Agent", text := some "hi",
                          timestamp := some "t0", sentiment := none } }
    { speaker := some "Agent", text := some "hi", timestamp := some "t0",
      sentiment := none }
    { type := some "omnichannelTranscriptUpdate", conversationId := some "xyz-999",
      speaker := some "Agent", text := some "hi", timestamp := some "t0",
      sentiment := none }
    "abc-123" "xyz-999" 3 "f1" rfl rfl rfl rfl (by decide) (by decide) rfl rfl
    (by decide)

/-- C7 counterexample: an article carrying a dedicated, parseable time
element, processed at two different wall-clock instants, yields two
different timestamps — both equal to the observation time, neither to the
element's time value — so the appended timestamp does not equal the parsed
time element; no extraction step ever consults it. -/
theorem timestamp_never_from_time_element :
    timedArticle.timeElem = some "2024-01-02T03:04:05Z" ∧
    ((processTranscriptArticle noDateParses 111 timedArticle
        (initState (some "conv") 0)).transcriptUtterances.map
      (fun p => p.2.timestamp)) = [JSDate.wallClock 111] ∧
    ((processTranscriptArticle noDateParses 222 timedArticle
        (initState (some "conv") 0)).transcriptUtterances.map
      (fun p => p.2.timestamp)) = [JSDate.wallClock 222] := by
  decide

/-- C7 amended: for every article element processed from the DOM, the
appended Utterance's timestamp is always the wall-clock time of
observation (`new Date()`); `processTranscriptArticle` contains no
timestamp-extraction step and never reads a time element from the
article. -/
theorem dom_timestamp_is_observation_time (parses : String → Bool) (a : Article)
    (now : Nat) (s : CtrlState)
    (hmem : memB a.elemId s.processedArticles = false)
    (ht : extractText a ≠ "") :
    (processTranscriptArticle parses now a s).transcriptUtterances =
      s.transcriptUtterances ++
        [(some a.elemId,
          { id := genUtteranceId now,
            speaker := some (normalizeSpeakerV1 (extractSender a)),
            text := some (extractText a),
            timestamp := JSDate.wallClock now, sentiment := none })] := by
  rw [process_append parses now a s hmem ht]

/-- C7 amended witness: the article carrying a time element, processed at
wall-clock instant 9. -/
theorem dom_timestamp_is_observation_time_witness :
    (processTranscriptArticle noDateParses 9 timedArticle
        (initState (some "conv") 0)).transcriptUtterances =
      (initState (some "conv") 0).transcriptUtterances ++
        [(some timedArticle.elemId,
          { id := genUtteranceId 9,
            speaker := some (normalizeSpeakerV1 (extractSender timedArticle)),
            text := some (extractText timedArticle),
            timestamp := JSDate.wallClock 9, sentiment := none })] :=
  dom_timestamp_is_observation_time noDateParses timedArticle 9
    (initState (some "conv") 0) (by decide) (by decide)

/-- C8 counterexample: after the concrete failed frame-location attempt, a
2000 ms retry is pending, the Polling Fallback has not been entered, and a
further failed retry attempt maps the state to exactly itself — the code
keeps no attempt counter, so after every number of failed attempts the
state is literally this one, still holding a pending retry and no polling;
this refutes the claimed "at most N attempts, then stop, signal permanently
unavailable and fall back to the Polling Fallback". -/
theorem retry_never_exhausts :
    retryFailState.pendingRetryDelayMs = some retryDelayMs ∧
    retryFailState.pollingInterval = none ∧
    step noDateParses retryFailState (MonEv.retryFires 0 FrameEnv.noConvFrame)
      = retryFailState := by
  decide

/-- C8 amended: on each failure to find the outer conversation frame or the
nested Omnichannel frame, `startIFrameMonitoring` schedules a retry after a
fixed 2000 ms delay with no bound on the number of attempts — it retries
forever, never signals permanent unavailability, and never enters the
Polling Fallback; failure to access the found Omnichannel iframe's document
returns without scheduling any retry at all. -/
theorem retry_fixed_delay_unbounded :
    (∀ (parses : String → Bool) (now : Nat) (s : CtrlState),
      startIFrameMonitoring parses now FrameEnv.noConvFrame s =
        { s with pendingRetryDelayMs := some retryDelayMs } ∧
      startIFrameMonitoring parses now FrameEnv.noOmniFrame s =
        { s with pendingRetryDelayMs := some retryDelayMs } ∧
      startIFrameMonitoring parses now FrameEnv.noDoc s = s) ∧
    retryDelayMs = 2000 ∧
    (∀ (parses : String → Bool) (N : Nat),
      ((c8FailTrace N).foldl (step parses) (initState none 0)).pendingRetryDelayMs
        = some retryDelayMs ∧
      ((c8FailTrace N).foldl (step parses) (initState none 0)).pollingInterval
        = none) := by
  refine ⟨fun parses now s => ⟨rfl, rfl, rfl⟩, rfl, fun parses N => ?_⟩
  have hfix :
      step parses
        (step parses (initState none 0) (MonEv.startMonitoring 0 FrameEnv.noConvFrame))
        (MonEv.retryFires 0 FrameEnv.noConvFrame)
      = step parses (initState none 0) (MonEv.startMonitoring 0 FrameEnv.noConvFrame) :=
    rfl
  unfold c8FailTrace
  rw [List.foldl_cons, foldl_fixpoint _ _ _ hfix]
  exact ⟨rfl, rfl⟩

/-- C10: `addUtterance` pushes unconditionally — before its rendering and
analysis tail, with no emptiness check on any argument; an inbound
postMessage whose `type` matches and whose `text` is the empty string or
undefined still appends an Utterance carrying exactly that text, and
likewise a custom event whose `utterance.text` is empty or undefined; only
the DOM-extraction path skips an article whose extracted text is empty. -/
theorem addUtterance_no_empty_guard (parses : String → Bool) (src : Option Nat)
    (sp tx : Option String) (ts : JSDate) (se idArg : Option String)
    (fid : String) (s : CtrlState) (m : PostMessageData)
    (d : TranscriptEventDetail) (u : EventUtterance)
    (now : Nat) (fid2 fid3 : String) (a : Article)
    (hmt : m.type = some "omnichannelTranscriptUpdate")
    (hmx : m.text = some "" ∨ m.text = none)
    (hdu : d.utterance = some u)
    (hux : u.text = some "" ∨ u.text = none)
    (hae : extractText a = "") :
    ((addUtterance parses src sp tx ts se idArg fid s).state.transcriptUtterances.length =
      s.transcriptUtterances.length + 1) ∧
    ((handlePostMessage parses (some m) now fid2 s).state.transcriptUtterances.map
        (fun p => p.2.text) =
      s.transcriptUtterances.map (fun p => p.2.text) ++ [m.text]) ∧
    ((handleCustomTranscriptEvent parses (some d) now fid3
        s).state.transcriptUtterances.map (fun p => p.2.text) =
      s.transcriptUtterances.map (fun p => p.2.text) ++ [u.text]) ∧
    (processTranscriptArticle parses now a s = s) := by
  refine ⟨addUtterance_length _ _ _ _ _ _ _ _ _, ?_, ?_,
    process_of_empty parses now a s hae⟩
  · rw [handlePost_ok parses m hmt, addUtterance_state_utterances]
    simp [latch_utterances]
  · rw [handleCustom_ok parses d u hdu, addUtterance_state_utterances]
    simp [latch_utterances]

/-- C10 witness: a matching postMessage with empty text and a custom event
with an undefined text both append, while an empty DOM article is
skipped. -/
theorem addUtterance_no_empty_guard_witness :
    ((addUtterance noDateParses none (some "Agent") (some "") (JSDate.wallClock 0)
        none none "f0" (initState (some "c") 0)).state.transcriptUtterances.length =
      (initState (some "c") 0).transcriptUtterances.length + 1) ∧
    ((handlePostMessage noDateParses
        (some { type := some "omnichannelTranscriptUpdate",
                conversationId := some "c", speaker := some "Agent",
                text := some "", timestamp := some "t0", sentiment := none })
        4 "f2" (initState (some "c") 0)).state.transcriptUtterances.map
        (fun p => p.2.text) =
      (initState (some "c") 0).transcriptUtterances.map (fun p => p.2.text) ++
        [some ""]) ∧
    ((handleCustomTranscriptEvent noDateParses
        (some { conversationId := some "c",
                utterance := some { speaker := some "Agent", text := none,
                                    timestamp := some "t0", sentiment := none } })
        4 "f3" (initState (some "c") 0)).state.transcriptUtterances.map
        (fun p => p.2.text) =
      (initState (some "c") 0).transcriptUtterances.map (fun p => p.2.text) ++
        [(none : Option String)]) ∧
    (processTranscriptArticle noDateParses 4 { elemId := 0 } (initState (some "c") 0) =
      initState (some "c") 0) :=
  addUtterance_no_empty_guard noDateParses none (some "Agent") (some "")
    (JSDate.wallClock 0) none none "f0" (initState (some "c") 0)
    { type := some "omnichannelTranscriptUpdate", conversationId := some "c",
      speaker := some "Agent", text := some "", timestamp := some "t0",
      sentiment := none }
    { conversationId := some "c",
      utterance := some { speaker := some "Agent", text := none,
                          timestamp := some "t0", sentiment := none } }
    { speaker := some "Agent", text := none, timestamp := some "t0",
      sentiment := none }
    4 "f2" "f3" { elemId := 0 } rfl (Or.inl rfl) rfl (Or.inr rfl) (by decide)

end PCFTranscription
